import Mathlib

/-!
Shallow embedding of the ratio-decidendi pipeline from `src/agent/graph.py` and
`src/agent/state.py`.

The Python code defines nine stage functions, each of which makes exactly one
call to an external language model (`llm.invoke`) with the accumulated message
history plus one freshly built `HumanMessage` prompt, and returns a new state
whose `messages` is the old history plus one `AIMessage` reply and whose
`current_step` names the next stage.  A `StateGraph` is then built with nine
nodes, static edges forming a simple path, entry point `"summarizer"`, and a
final edge to the reserved constant `END` (the string `"__end__"` in the graph
library).

The external model call is embedded as a function `List Msg → m Msg` for an
arbitrary monad `m`, so that the same stage definitions can be run with a pure
stub (`Id`), a call-recording stub (`StateM`), or a failing stub (`Except`).
-/

namespace RatioPipeline

/-- Role tag of one conversation turn: `human` embeds `HumanMessage`
(user/system origin), `ai` embeds `AIMessage` (model origin). -/
inductive Role where
  | human
  | ai
deriving DecidableEq

/-- One conversation turn (a `BaseMessage` in the source): a role tag plus
textual content. -/
structure Msg where
  role : Role
  content : String
deriving DecidableEq

/-- The pipeline state from `src/agent/state.py`: the conversation history and
the name of the current step. -/
structure State where
  messages : List Msg
  current_step : String
deriving DecidableEq

/-- Prompt literal of `summarizer_agent` (graph.py lines 15-21).  The braces
and the apostrophes of the Python source are written with `\x` escapes; the
placeholder `\x7btext\x7d` is the literal text `{text}` of the source, which
the source never substitutes. -/
def summarizer_prompt : String :=
  "\n    Provide a concise summary of the key elements of the following legal judgment. The summary should be about 150 words long. Provide output in JSON format as follows:\n    \x7b\"summary\": \"...\"\x7d\n\n    Judgment Text:\n    \x7btext\x7d\n    "

/-- Prompt literal of `express_issue_identifier` (graph.py lines 26-32). -/
def express_issue_prompt : String :=
  "\n    Identify and extract all relevant direct quotations from the following legal judgment that explicitly state the legal issues addressed in the case. Do not include any paraphrasing or additional commentary. Provide output in JSON format as follows:\n    [\x7b\"issue\": \"...\"\x7d, ..., \x7b\"issue\": \"...\"\x7d]\n\n    Judgment Text:\n    \x7btext\x7d\n    "

/-- Prompt literal of `decision_extractor` (graph.py lines 37-43). -/
def decision_prompt : String :=
  "\n    Extract all relevant direct quotations from the following legal judgment that detail the court\x27s final decision. Do not include any paraphrasing or additional commentary. Provide output in JSON format as follows:\n    [\x7b\"decision\": \"...\"\x7d, ..., \x7b\"decision\": \"...\"\x7d]\n\n    Judgment Text:\n    \x7btext\x7d\n    "

/-- Prompt literal of `argument_identifier` (graph.py lines 48-54). -/
def argument_prompt : String :=
  "\n    Extract all relevant direct quotations from the following legal judgment that present the key arguments from each party involved in the case. Do not include any paraphrasing or additional commentary. Provide output in JSON format as follows:\n    [\x7b\"party\": \"...\", \"argument\": \"...\"\x7d, ..., \x7b\"party\": \"...\", \"argument\": \"...\"\x7d]\n\n    Judgment Text:\n    \x7btext\x7d\n    "

/-- Prompt literal of `implicit_issue_identifier` (graph.py lines 59-65). -/
def implicit_issue_prompt : String :=
  "\n    Identify and extract any implicit legal issues from the following legal judgment. You may include minimal commentary to explain their relevance. Provide output in JSON format as follows:\n    [\x7b\"issue\": \"...\", \"explanation\": \"...\"\x7d, ..., \x7b\"issue\": \"...\", \"explanation\": \"...\"\x7d]\n\n    Judgment Text:\n    \x7btext\x7d\n    "

/-- Prompt literal of `reasoning_tracer` (graph.py lines 70-76). -/
def reasoning_prompt : String :=
  "\n    Extract all relevant direct quotations that demonstrate the court\x27s reasoning process. Do not include any paraphrasing or additional commentary. Provide output in JSON format as follows:\n    [\x7b\"step\": \"...\", \"reasoning\": \"...\"\x7d, ..., \x7b\"step\": \"...\", \"reasoning\": \"...\"\x7d]\n\n    Judgment Text:\n    \x7btext\x7d\n    "

/-- Prompt literal of `initial_ratio_decider` (graph.py lines 81-87). -/
def initial_ratio_prompt : String :=
  "\n    Extract all relevant direct quotations that compose the initial ratio decidendi of the case. Do not include any paraphrasing or additional commentary. Provide output in JSON format as follows:\n    [\x7b\"ratio\": \"...\"\x7d, ..., \x7b\"ratio\": \"...\"\x7d]\n\n    Judgment Text:\n    \x7btext\x7d\n    "

/-- Prompt literal of `material_fact_highlighter` (graph.py lines 92-98). -/
def material_fact_prompt : String :=
  "\n    Extract all relevant direct quotations that highlight the material facts of the case. Do not include any paraphrasing or additional commentary. Provide output in JSON format as follows:\n    [\x7b\"fact\": \"...\"\x7d, ..., \x7b\"fact\": \"...\"\x7d]\n\n    Judgment Text:\n    \x7btext\x7d\n    "

/-- Prompt literal of `final_ratio_decider` (graph.py lines 103-109). -/
def final_ratio_prompt : String :=
  "\n    Extract all relevant direct quotations that compose the final ratio decidendi of the case, considering the initial ratio and the highlighted material facts. Do not include any paraphrasing or additional commentary. Provide output in JSON format as follows:\n    [\x7b\"ratio\": \"...\"\x7d, ..., \x7b\"ratio\": \"...\"\x7d]\n\n    Judgment Text:\n    \x7btext\x7d\n    "

/-- Stage function `summarizer_agent` (graph.py lines 13-22): one model call
with `messages + [HumanMessage(prompt)]`, reply appended as an `AIMessage`,
`current_step` set to `"express_issue_identifier"`. -/
def summarizer_agent {m : Type → Type} [Monad m]
    (llm : List Msg → m Msg) (state : State) : m State := do
  let summary ← llm (state.messages ++ [Msg.mk Role.human summarizer_prompt])
  pure { messages := state.messages ++ [Msg.mk Role.ai summary.content],
         current_step := "express_issue_identifier" }

/-- Stage function `express_issue_identifier` (graph.py lines 24-33). -/
def express_issue_identifier {m : Type → Type} [Monad m]
    (llm : List Msg → m Msg) (state : State) : m State := do
  let issues ← llm (state.messages ++ [Msg.mk Role.human express_issue_prompt])
  pure { messages := state.messages ++ [Msg.mk Role.ai issues.content],
         current_step := "decision_extractor" }

/-- Stage function `decision_extractor` (graph.py lines 35-44). -/
def decision_extractor {m : Type → Type} [Monad m]
    (llm : List Msg → m Msg) (state : State) : m State := do
  let decision ← llm (state.messages ++ [Msg.mk Role.human decision_prompt])
  pure { messages := state.messages ++ [Msg.mk Role.ai decision.content],
         current_step := "argument_identifier" }

/-- Stage function `argument_identifier` (graph.py lines 46-55). -/
def argument_identifier {m : Type → Type} [Monad m]
    (llm : List Msg → m Msg) (state : State) : m State := do
  let arguments ← llm (state.messages ++ [Msg.mk Role.human argument_prompt])
  pure { messages := state.messages ++ [Msg.mk Role.ai arguments.content],
         current_step := "implicit_issue_identifier" }

/-- Stage function `implicit_issue_identifier` (graph.py lines 57-66). -/
def implicit_issue_identifier {m : Type → Type} [Monad m]
    (llm : List Msg → m Msg) (state : State) : m State := do
  let issues ← llm (state.messages ++ [Msg.mk Role.human implicit_issue_prompt])
  pure { messages := state.messages ++ [Msg.mk Role.ai issues.content],
         current_step := "reasoning_tracer" }

/-- Stage function `reasoning_tracer` (graph.py lines 68-77). -/
def reasoning_tracer {m : Type → Type} [Monad m]
    (llm : List Msg → m Msg) (state : State) : m State := do
  let reasoning ← llm (state.messages ++ [Msg.mk Role.human reasoning_prompt])
  pure { messages := state.messages ++ [Msg.mk Role.ai reasoning.content],
         current_step := "initial_ratio_decider" }

/-- Stage function `initial_ratio_decider` (graph.py lines 79-88). -/
def initial_ratio_decider {m : Type → Type} [Monad m]
    (llm : List Msg → m Msg) (state : State) : m State := do
  let ratio ← llm (state.messages ++ [Msg.mk Role.human initial_ratio_prompt])
  pure { messages := state.messages ++ [Msg.mk Role.ai ratio.content],
         current_step := "material_fact_highlighter" }

/-- Stage function `material_fact_highlighter` (graph.py lines 90-99). -/
def material_fact_highlighter {m : Type → Type} [Monad m]
    (llm : List Msg → m Msg) (state : State) : m State := do
  let facts ← llm (state.messages ++ [Msg.mk Role.human material_fact_prompt])
  pure { messages := state.messages ++ [Msg.mk Role.ai facts.content],
         current_step := "final_ratio_decider" }

/-- Stage function `final_ratio_decider` (graph.py lines 101-110): note that it
sets `current_step` to the plain string `"end"`, not to the graph library
constant `END`. -/
def final_ratio_decider {m : Type → Type} [Monad m]
    (llm : List Msg → m Msg) (state : State) : m State := do
  let final_ratio ← llm (state.messages ++ [Msg.mk Role.human final_ratio_prompt])
  pure { messages := state.messages ++ [Msg.mk Role.ai final_ratio.content],
         current_step := "end" }

/-- The `router` function (graph.py lines 112-114): returns
`state["current_step"]`.  It is defined in the source but never registered in
the workflow (the workflow uses only static `add_edge` calls). -/
def router (state : State) : String :=
  state.current_step

/-- The reserved terminal constant `END` of the graph library, whose value is
the string `"__end__"`. -/
def END : String := "__end__"

/-- The static edge table built by the nine `workflow.add_edge` calls
(graph.py lines 130-139). -/
def edges : String → Option String
  | "summarizer" => some "express_issue_identifier"
  | "express_issue_identifier" => some "decision_extractor"
  | "decision_extractor" => some "argument_identifier"
  | "argument_identifier" => some "implicit_issue_identifier"
  | "implicit_issue_identifier" => some "reasoning_tracer"
  | "reasoning_tracer" => some "initial_ratio_decider"
  | "initial_ratio_decider" => some "material_fact_highlighter"
  | "material_fact_highlighter" => some "final_ratio_decider"
  | "final_ratio_decider" => some END
  | _ => none

/-- The node table built by the nine `workflow.add_node` calls
(graph.py lines 120-128): stage name to stage function. -/
def nodeFn {m : Type → Type} [Monad m] (llm : List Msg → m Msg) :
    String → Option (State → m State)
  | "summarizer" => some (summarizer_agent llm)
  | "express_issue_identifier" => some (express_issue_identifier llm)
  | "decision_extractor" => some (decision_extractor llm)
  | "argument_identifier" => some (argument_identifier llm)
  | "implicit_issue_identifier" => some (implicit_issue_identifier llm)
  | "reasoning_tracer" => some (reasoning_tracer llm)
  | "initial_ratio_decider" => some (initial_ratio_decider llm)
  | "material_fact_highlighter" => some (material_fact_highlighter llm)
  | "final_ratio_decider" => some (final_ratio_decider llm)
  | _ => none

/-- Modelled from the spec: the sequential orchestrator of the compiled graph
(`workflow.compile()`), whose execution engine is the graph library and is not
part of `src/`.  Starting from a node name, it runs that node's stage
function, follows the node's single static edge, and repeats until it reaches
the reserved terminal constant; it also returns the trace of node names it
executed.  `fuel` bounds the iteration so the definition is total; for this
path-shaped graph a fuel of 10 is enough to reach the terminal constant. -/
def runFromG {m : Type → Type} [Monad m]
    (fn : String → Option (State → m State)) (edge : String → Option String) :
    Nat → String → State → m (State × List String)
  | 0, _, s => pure (s, [])
  | Nat.succ fuel, node, s =>
    if node = END then pure (s, [])
    else
      match fn node with
      | none => pure (s, [])
      | some f => do
        let s' ← f s
        match edge node with
        | none => pure (s', [node])
        | some nxt => do
          let r ← runFromG fn edge fuel nxt s'
          pure (r.fst, node :: r.snd)

/-- Modelled from the spec: running the compiled graph with a given model
capability, from a given entry node. -/
def runFrom {m : Type → Type} [Monad m] (llm : List Msg → m Msg)
    (fuel : Nat) (entry : String) (s : State) : m (State × List String) :=
  runFromG (nodeFn llm) edges fuel entry s

/-- The statically declared stage order of the pipeline, entry point first
(`workflow.set_entry_point("summarizer")`, graph.py line 142, followed by the
static edges). -/
def stageOrder : List String :=
  ["summarizer", "express_issue_identifier", "decision_extractor",
   "argument_identifier", "implicit_issue_identifier", "reasoning_tracer",
   "initial_ratio_decider", "material_fact_highlighter", "final_ratio_decider"]

/-- Seed turn of the end-to-end scenario: one user-origin turn with the
literal case text. -/
def seedMsg : Msg := Msg.mk Role.human "Case: Doe v. Roe. Facts: ... Decision: plaintiff wins."

/-- Seed state of the end-to-end scenario: exactly one user-origin turn,
entry stage `"summarizer"`. -/
def seed0 : State := { messages := [seedMsg], current_step := "summarizer" }

/-- Stub model capability for the end-to-end scenario: the k-th invocation
replies with the k-th stage's name followed by `"-output"`.  It is stateful
only in the call counter, embedded in `StateM Nat`. -/
def stubLLM : List Msg → StateM Nat Msg :=
  fun _ => fun k => (Msg.mk Role.ai ((stageOrder.getD k "") ++ "-output"), k + 1)

/-- Call-recording stub model capability: replies with a fixed message and
records the exact argument list of every invocation, embedded in
`StateM (List (List Msg))`. -/
def recLLM : List Msg → StateM (List (List Msg)) Msg :=
  fun ms => fun calls => (Msg.mk Role.ai "stub-reply", calls ++ [ms])

/-- Failing stub model capability: succeeds on the first `k` invocations and
fails with an opaque error on invocation number `k` (0-based), embedded in
`StateT Nat (Except String)`. -/
def failLLM (k : Nat) : List Msg → StateT Nat (Except String) Msg :=
  fun _ => fun n =>
    if n = k then Except.error "model failure"
    else Except.ok (Msg.mk Role.ai "stub-reply", n + 1)

/-- Constant stub model capability in the identity monad. -/
def constLLM : List Msg → Id Msg :=
  fun _ => Msg.mk Role.ai "x"

/-- Outbound turns of a stage at a state: the part of the argument of the
stage's one recorded model invocation that extends the state's own message
history. -/
def outboundOf
    (stage : (List Msg → StateM (List (List Msg)) Msg) → State →
      StateM (List (List Msg)) State) (s : State) : List Msg :=
  (((stage recLLM s).run []).snd.headD []).drop s.messages.length

/-- Node table in which every stage's declared `current_step` is overwritten
by an arbitrary retagging function after the stage runs.  Used to show that
the executed stage sequence does not depend on the `current_step` values the
stages write. -/
def retagFn {m : Type → Type} [Monad m] (llm : List Msg → m Msg)
    (tags : String → String) (name : String) : Option (State → m State) :=
  (nodeFn llm name).map (fun f => fun s => do
    let s' ← f s
    pure { s' with current_step := tags name })

deriving instance DecidableEq for Except

/-- Helper: any stage function registered in the node table grows the message
history by exactly one turn (in the identity-monad instantiation). -/
theorem nodeFn_messages_len (llm : List Msg → Id Msg) (node : String)
    (f : State → Id State) (h : nodeFn llm node = some f) (s : State) :
    (f s).messages.length = s.messages.length + 1 := by
  unfold nodeFn at h
  split at h
  all_goals first
    | (injection h with h; subst h; exact List.length_append _ _)
    | exact Option.noConfusion h

/-- Helper: if every registered node's stage function never shrinks the
message history, then neither does the fueled runner, from any node and any
state. -/
theorem runFromG_mono (fn : String → Option (State → Id State)) (edge : String → Option String)
    (hfn : ∀ node f s, fn node = some f →
      s.messages.length ≤ ((f s : Id State) : State).messages.length) :
    ∀ (fuel : Nat) (node : String) (s : State),
      s.messages.length ≤
        (((runFromG fn edge fuel node s : Id _) : State × List String).fst).messages.length := by
  intro fuel
  induction fuel with
  | zero => intro node s; exact Nat.le_refl _
  | succ n ih =>
    intro node s
    unfold runFromG
    by_cases hnode : node = END
    · simp only [hnode, if_true]
      exact Nat.le_refl _
    · simp only [hnode, if_false]
      cases hf : fn node with
      | none => exact Nat.le_refl _
      | some f =>
        cases he : edge node with
        | none =>
          simp only [Id.bind_eq, Id.pure_eq]
          exact hfn node f s hf
        | some nxt =>
          simp only [Id.bind_eq, Id.pure_eq]
          exact Nat.le_trans (hfn node f s hf) (ih nxt (f s))

set_option maxRecDepth 400000 in
/-- C1 (counterexample to the claim as stated): in the end-to-end scenario —
seed `seed0` with exactly one user-origin turn, entry stage `"summarizer"`,
stub model replying `"<stage>-output"` to each call — the final message
history does NOT have length 1 + 2 × 9 = 19, because each stage records only
the model's reply, never the outbound prompt. -/
theorem C1_scenario_not_nineteen :
    (((runFrom stubLLM 10 "summarizer" seed0).run 0).fst.fst.messages).length ≠ 19 := by
  decide

set_option maxRecDepth 400000 in
/-- C1 (amended): in the end-to-end scenario the final message history has
length 1 + 9 = 10 (seed turn plus one recorded reply per stage), and its last
turn has content `"final_ratio_decider-output"`. -/
theorem C1_scenario_ten_turns :
    (((runFrom stubLLM 10 "summarizer" seed0).run 0).fst.fst.messages).length = 10 ∧
    ((((runFrom stubLLM 10 "summarizer" seed0).run 0).fst.fst.messages).getLast?).map
        Msg.content = some "final_ratio_decider-output" := by
  exact ⟨by decide, by decide⟩

/-- C2: every stage function returns a state whose message history is exactly
one turn longer than its input's (the uniform increment for this
configuration, which records only the reply), and the message-history length
is monotonically non-decreasing across any run of the pipeline, from any node
and any state. -/
theorem C2_messages_growth (llm : List Msg → Id Msg) :
    (∀ s : State,
      (summarizer_agent llm s).messages.length = s.messages.length + 1 ∧
      (express_issue_identifier llm s).messages.length = s.messages.length + 1 ∧
      (decision_extractor llm s).messages.length = s.messages.length + 1 ∧
      (argument_identifier llm s).messages.length = s.messages.length + 1 ∧
      (implicit_issue_identifier llm s).messages.length = s.messages.length + 1 ∧
      (reasoning_tracer llm s).messages.length = s.messages.length + 1 ∧
      (initial_ratio_decider llm s).messages.length = s.messages.length + 1 ∧
      (material_fact_highlighter llm s).messages.length = s.messages.length + 1 ∧
      (final_ratio_decider llm s).messages.length = s.messages.length + 1) ∧
    ∀ (fuel : Nat) (node : String) (s : State),
      s.messages.length ≤
        (((runFrom llm fuel node s : Id _) : State × List String).fst).messages.length := by
  constructor
  · intro s
    exact ⟨List.length_append _ _, List.length_append _ _, List.length_append _ _,
      List.length_append _ _, List.length_append _ _, List.length_append _ _,
      List.length_append _ _, List.length_append _ _, List.length_append _ _⟩
  · intro fuel node s
    exact runFromG_mono (nodeFn llm) edges
      (fun node f s h => by
        rw [nodeFn_messages_len llm node f h s]
        exact Nat.le_succ _)
      fuel node s

/-- C3 (counterexample to the claim as stated): the last stage
`final_ratio_decider` returns `current_step = "end"`, which is NOT the
reserved terminal constant `END` (`"__end__"`) that the edge table declares as
its successor. -/
theorem C3_last_stage_not_terminal :
    (final_ratio_decider constLLM seed0).current_step ≠ END ∧
    edges "final_ratio_decider" = some END := by
  exact ⟨by decide, rfl⟩

/-- C3 (amended): each of the first eight stages returns `current_step` equal
to its statically declared successor in the edge table; the last stage
returns `current_step = "end"`, a plain string distinct from the reserved
terminal constant `END` to which its static edge points. -/
theorem C3_current_step_successor (llm : List Msg → Id Msg) (s : State) :
    (summarizer_agent llm s).current_step = "express_issue_identifier" ∧
    edges "summarizer" = some "express_issue_identifier" ∧
    (express_issue_identifier llm s).current_step = "decision_extractor" ∧
    edges "express_issue_identifier" = some "decision_extractor" ∧
    (decision_extractor llm s).current_step = "argument_identifier" ∧
    edges "decision_extractor" = some "argument_identifier" ∧
    (argument_identifier llm s).current_step = "implicit_issue_identifier" ∧
    edges "argument_identifier" = some "implicit_issue_identifier" ∧
    (implicit_issue_identifier llm s).current_step = "reasoning_tracer" ∧
    edges "implicit_issue_identifier" = some "reasoning_tracer" ∧
    (reasoning_tracer llm s).current_step = "initial_ratio_decider" ∧
    edges "reasoning_tracer" = some "initial_ratio_decider" ∧
    (initial_ratio_decider llm s).current_step = "material_fact_highlighter" ∧
    edges "initial_ratio_decider" = some "material_fact_highlighter" ∧
    (material_fact_highlighter llm s).current_step = "final_ratio_decider" ∧
    edges "material_fact_highlighter" = some "final_ratio_decider" ∧
    (final_ratio_decider llm s).current_step = "end" ∧
    edges "final_ratio_decider" = some END ∧
    "end" ≠ END := by
  exact ⟨rfl, rfl, rfl, rfl, rfl, rfl, rfl, rfl, rfl, rfl, rfl, rfl, rfl, rfl,
    rfl, rfl, rfl, rfl, by decide⟩

/-- C4: for every model capability, every seed state and every fuel of at
least 10, running the compiled graph from the entry stage `"summarizer"`
executes exactly the nine registered stages, once each, in the statically
declared order, and then terminates; the stage order has no duplicates. -/
theorem C4_trace_fixed (llm : List Msg → Id Msg) (s : State) (n : Nat) :
    (runFrom llm (n + 10) "summarizer" s).snd = stageOrder ∧ stageOrder.Nodup := by
  exact ⟨rfl, by decide⟩

/-- C5: every stage function invokes the model capability exactly once, with
argument equal to the input state's messages extended by exactly one outbound
turn built from that stage's fixed prompt, and appends exactly one inbound
reply turn; shown with the call-recording stub, whose recorded call list after
the stage is a singleton. -/
theorem C5_single_invocation (s : State) :
    ((summarizer_agent recLLM s).run []).snd =
      [s.messages ++ [Msg.mk Role.human summarizer_prompt]] ∧
    ((summarizer_agent recLLM s).run []).fst.messages =
      s.messages ++ [Msg.mk Role.ai "stub-reply"] ∧
    ((express_issue_identifier recLLM s).run []).snd =
      [s.messages ++ [Msg.mk Role.human express_issue_prompt]] ∧
    ((express_issue_identifier recLLM s).run []).fst.messages =
      s.messages ++ [Msg.mk Role.ai "stub-reply"] ∧
    ((decision_extractor recLLM s).run []).snd =
      [s.messages ++ [Msg.mk Role.human decision_prompt]] ∧
    ((decision_extractor recLLM s).run []).fst.messages =
      s.messages ++ [Msg.mk Role.ai "stub-reply"] ∧
    ((argument_identifier recLLM s).run []).snd =
      [s.messages ++ [Msg.mk Role.human argument_prompt]] ∧
    ((argument_identifier recLLM s).run []).fst.messages =
      s.messages ++ [Msg.mk Role.ai "stub-reply"] ∧
    ((implicit_issue_identifier recLLM s).run []).snd =
      [s.messages ++ [Msg.mk Role.human implicit_issue_prompt]] ∧
    ((implicit_issue_identifier recLLM s).run []).fst.messages =
      s.messages ++ [Msg.mk Role.ai "stub-reply"] ∧
    ((reasoning_tracer recLLM s).run []).snd =
      [s.messages ++ [Msg.mk Role.human reasoning_prompt]] ∧
    ((reasoning_tracer recLLM s).run []).fst.messages =
      s.messages ++ [Msg.mk Role.ai "stub-reply"] ∧
    ((initial_ratio_decider recLLM s).run []).snd =
      [s.messages ++ [Msg.mk Role.human initial_ratio_prompt]] ∧
    ((initial_ratio_decider recLLM s).run []).fst.messages =
      s.messages ++ [Msg.mk Role.ai "stub-reply"] ∧
    ((material_fact_highlighter recLLM s).run []).snd =
      [s.messages ++ [Msg.mk Role.human material_fact_prompt]] ∧
    ((material_fact_highlighter recLLM s).run []).fst.messages =
      s.messages ++ [Msg.mk Role.ai "stub-reply"] ∧
    ((final_ratio_decider recLLM s).run []).snd =
      [s.messages ++ [Msg.mk Role.human final_ratio_prompt]] ∧
    ((final_ratio_decider recLLM s).run []).fst.messages =
      s.messages ++ [Msg.mk Role.ai "stub-reply"] := by
  exact ⟨rfl, rfl, rfl, rfl, rfl, rfl, rfl, rfl, rfl, rfl, rfl, rfl, rfl, rfl,
    rfl, rfl, rfl, rfl⟩

set_option maxRecDepth 400000 in
/-- C6: if the model invocation fails at any of the nine stages (failing stub
erroring on the k-th call, for every k below 9), the error propagates through
the whole run: the result is exactly the error, with no retry and no partial
message history returned. -/
theorem C6_error_propagation :
    ∀ k : Fin 9,
      (runFrom (failLLM k.val) 10 "summarizer" seed0).run 0 =
        Except.error "model failure" := by
  decide

/-- C7: no stage function mutates its input state: each returns a state whose
message history strictly extends the input's history (the input history is a
prefix of the output history, one turn shorter); in this pure embedding the
input state itself is unchanged by construction. -/
theorem C7_no_mutation (llm : List Msg → Id Msg) (s : State) :
    (s.messages <+: (summarizer_agent llm s).messages ∧
      (summarizer_agent llm s).messages.length = s.messages.length + 1) ∧
    (s.messages <+: (express_issue_identifier llm s).messages ∧
      (express_issue_identifier llm s).messages.length = s.messages.length + 1) ∧
    (s.messages <+: (decision_extractor llm s).messages ∧
      (decision_extractor llm s).messages.length = s.messages.length + 1) ∧
    (s.messages <+: (argument_identifier llm s).messages ∧
      (argument_identifier llm s).messages.length = s.messages.length + 1) ∧
    (s.messages <+: (implicit_issue_identifier llm s).messages ∧
      (implicit_issue_identifier llm s).messages.length = s.messages.length + 1) ∧
    (s.messages <+: (reasoning_tracer llm s).messages ∧
      (reasoning_tracer llm s).messages.length = s.messages.length + 1) ∧
    (s.messages <+: (initial_ratio_decider llm s).messages ∧
      (initial_ratio_decider llm s).messages.length = s.messages.length + 1) ∧
    (s.messages <+: (material_fact_highlighter llm s).messages ∧
      (material_fact_highlighter llm s).messages.length = s.messages.length + 1) ∧
    (s.messages <+: (final_ratio_decider llm s).messages ∧
      (final_ratio_decider llm s).messages.length = s.messages.length + 1) := by
  exact ⟨⟨List.prefix_append _ _, List.length_append _ _⟩,
    ⟨List.prefix_append _ _, List.length_append _ _⟩,
    ⟨List.prefix_append _ _, List.length_append _ _⟩,
    ⟨List.prefix_append _ _, List.length_append _ _⟩,
    ⟨List.prefix_append _ _, List.length_append _ _⟩,
    ⟨List.prefix_append _ _, List.length_append _ _⟩,
    ⟨List.prefix_append _ _, List.length_append _ _⟩,
    ⟨List.prefix_append _ _, List.length_append _ _⟩,
    ⟨List.prefix_append _ _, List.length_append _ _⟩⟩

/-- C8: the router returns exactly the value of the state's `current_step`
field, unmodified. -/
theorem C8_router_passthrough (s : State) : router s = s.current_step := rfl

set_option maxRecDepth 400000 in
/-- C9: for every input state, the outbound turn each stage sends to the model
is the same fixed constant prompt (so any two input states yield the identical
outbound turn), and every prompt contains the literal unsubstituted
placeholder text `\x7btext\x7d`. -/
theorem C9_constant_prompts (s : State) :
    (outboundOf summarizer_agent s = [Msg.mk Role.human summarizer_prompt] ∧
      "\x7btext\x7d".data <:+: summarizer_prompt.data) ∧
    (outboundOf express_issue_identifier s = [Msg.mk Role.human express_issue_prompt] ∧
      "\x7btext\x7d".data <:+: express_issue_prompt.data) ∧
    (outboundOf decision_extractor s = [Msg.mk Role.human decision_prompt] ∧
      "\x7btext\x7d".data <:+: decision_prompt.data) ∧
    (outboundOf argument_identifier s = [Msg.mk Role.human argument_prompt] ∧
      "\x7btext\x7d".data <:+: argument_prompt.data) ∧
    (outboundOf implicit_issue_identifier s = [Msg.mk Role.human implicit_issue_prompt] ∧
      "\x7btext\x7d".data <:+: implicit_issue_prompt.data) ∧
    (outboundOf reasoning_tracer s = [Msg.mk Role.human reasoning_prompt] ∧
      "\x7btext\x7d".data <:+: reasoning_prompt.data) ∧
    (outboundOf initial_ratio_decider s = [Msg.mk Role.human initial_ratio_prompt] ∧
      "\x7btext\x7d".data <:+: initial_ratio_prompt.data) ∧
    (outboundOf material_fact_highlighter s = [Msg.mk Role.human material_fact_prompt] ∧
      "\x7btext\x7d".data <:+: material_fact_prompt.data) ∧
    (outboundOf final_ratio_decider s = [Msg.mk Role.human final_ratio_prompt] ∧
      "\x7btext\x7d".data <:+: final_ratio_prompt.data) := by
  exact ⟨⟨List.drop_left _ _, by decide⟩, ⟨List.drop_left _ _, by decide⟩,
    ⟨List.drop_left _ _, by decide⟩, ⟨List.drop_left _ _, by decide⟩,
    ⟨List.drop_left _ _, by decide⟩, ⟨List.drop_left _ _, by decide⟩,
    ⟨List.drop_left _ _, by decide⟩, ⟨List.drop_left _ _, by decide⟩,
    ⟨List.drop_left _ _, by decide⟩⟩

/-- C10: the executed stage sequence of the compiled graph is fixed by the
static edges alone: even when every stage's declared `current_step` is
overwritten by an arbitrary retagging function, the run from the entry stage
still executes exactly the nine stages in the declared order; and the last
stage's declared value `"end"` is a plain string distinct from the reserved
terminal constant `END`. -/
theorem C10_static_routing (llm : List Msg → Id Msg) (tags : String → String)
    (s : State) (n : Nat) :
    (runFromG (retagFn llm tags) edges (n + 10) "summarizer" s).snd = stageOrder ∧
    "end" ≠ END := by
  exact ⟨rfl, by decide⟩

end RatioPipeline
